import Mathlib

/-!
Shallow embedding of `src/nexgen/tools/Metafile.py`: the `Metafile`,
`DectrisMetafile` and `TristanMetafile` classes over an HDF5-like
hierarchical container, together with proofs about their getters.

The container is modelled as a tree of named groups and datasets; a
dataset holds a one-dimensional array of elements (integers or byte
strings, byte strings decodable to text).  Python exceptions raised by
the code (`KeyError`, `IndexError`, `TypeError`, ...) are modelled with
an `Except PyErr` result.
-/

/-- An element stored in a dataset: an integer, a raw byte string, or
decoded text (the result of `bytes.decode()`). -/
inductive Elem where
  | int (n : Int)
  | bytes (s : String)
  | str (s : String)
deriving DecidableEq, Repr

/-- Python exceptions that the embedded code can raise. -/
inductive PyErr where
  | keyError
  | indexError
  | typeError
  | attributeError
  | valueError
deriving DecidableEq, Repr

mutual
/-- An HDF5 node: a group of named children or a dataset holding a
one-dimensional array of elements. -/
inductive H5Node where
  | group (children : H5Children)
  | dataset (vals : List Elem)
deriving DecidableEq, Repr

/-- The ordered children of a group (names are the h5py iteration
order). -/
inductive H5Children where
  | nil
  | cons (name : String) (node : H5Node) (rest : H5Children)
deriving DecidableEq, Repr
end

/-- Top-level child names, i.e. Python `handle.keys()`. -/
def keysOf : H5Children → List String
  | .nil => []
  | .cons n _ rest => n :: keysOf rest

/-- `handle.keys()` on the file root. -/
def rootKeys : H5Node → List String
  | .group cs => keysOf cs
  | .dataset _ => []

/-- Association lookup of a child by name inside a group. -/
def childLookup : H5Children → String → Option H5Node
  | .nil, _ => none
  | .cons n c rest, k => if n == k then some c else childLookup rest k

/-- Resolve a list of path segments from a node. -/
def lookupSegs : H5Node → List String → Option H5Node
  | node, [] => some node
  | .group cs, s :: ss =>
      match childLookup cs s with
      | some c => lookupSegs c ss
      | none => none
  | .dataset _, _ :: _ => none

/-- Split a character list at `'/'` separators. -/
def splitSlashAux : List Char → List Char → List (List Char)
  | [], acc => [acc.reverse]
  | c :: cs, acc =>
      if c == '/' then acc.reverse :: splitSlashAux cs []
      else splitSlashAux cs (c :: acc)

/-- A "/"-separated path into its segments, as h5py resolves keys. -/
def splitSlash (s : String) : List String :=
  (splitSlashAux s.data []).map List.asString

/-- Python `handle[path]` with a "/"-separated path. -/
def lookupPath (f : H5Node) (p : String) : Option H5Node :=
  lookupSegs f (splitSlash p)

mutual
/-- Paths produced by `h5py.File.visit` below a group: a preorder
depth-first traversal, each child emitted before its descendants. -/
def walkChildren (pre : String) : H5Children → List String
  | .nil => []
  | .cons n c rest =>
      (pre ++ n) :: (walkInto (pre ++ n ++ "/") c ++ walkChildren pre rest)

/-- Traversal below a single node (a dataset has no descendants). -/
def walkInto (pre : String) : H5Node → List String
  | .dataset _ => []
  | .group cs => walkChildren pre cs
end

/-- `Metafile.walk`: the cached flattened listing of every path in the
container, in traversal order. -/
def walk (f : H5Node) : List String := walkInto "" f

/-- `needle` starts the list `hay`. -/
def leadsWith : List Char → List Char → Bool
  | [], _ => true
  | _ :: _, [] => false
  | a :: as, b :: bs => a == b && leadsWith as bs

/-- `needle` occurs contiguously inside `hay`. -/
def containsSeq (needle : List Char) : List Char → Bool
  | [] => leadsWith needle []
  | c :: rest => leadsWith needle (c :: rest) || containsSeq needle rest

/-- Python `needle in hay` on strings: substring containment. -/
def pyIn (needle hay : String) : Bool := containsSeq needle.data hay.data

/-- Python `s.lower()` (ASCII case folding, as used on path names). -/
def pyLower (s : String) : String := List.asString (s.data.map Char.toLower)

/-- `Metafile.hasMask`: exact membership of `"mask"` in the walk. -/
def hasMask (f : H5Node) : Bool := (walk f).contains "mask"

/-- `Metafile.hasFlatfield`: exact membership of `"flatfield"`. -/
def hasFlatfield (f : H5Node) : Bool := (walk f).contains "flatfield"

/-- The expression `self.__getitem__(p)[0]` used by the scalar getters:
`KeyError` when the path is missing, `TypeError` when it names a group,
`IndexError` when the dataset is empty, else its first element. -/
def item0 (f : H5Node) (p : String) : Except PyErr Elem :=
  match lookupPath f p with
  | none => .error .keyError
  | some (.group _) => .error .typeError
  | some (.dataset []) => .error .indexError
  | some (.dataset (e :: _)) => .ok e

/-- A value of `DectrisMetafile.read_dectris_config`: a scalar after
unwrapping a single-element array (byte strings decoded), or the raw
array when it does not hold exactly one element. -/
inductive ConfigVal where
  | scalar (e : Elem)
  | array (es : List Elem)
deriving DecidableEq, Repr

/-- `v.decode()` applied when the unwrapped element is a byte string. -/
def decodeElem : Elem → Elem
  | .bytes s => .str s
  | e => e

/-- The unwrap-and-decode step of `read_dectris_config`:
`if len(v) == 1: v = v[0]; if isinstance(v, bytes): v = v.decode()`. -/
def mkConfigVal (vs : List Elem) : ConfigVal :=
  match vs with
  | [v] => .scalar (decodeElem v)
  | _ => .array vs

/-- The body of the `for k, v in handle["_dectris"].items()` loop:
every child must be a dataset (`v[()]` fails on a group). -/
def readItems : H5Children → Except PyErr (List (String × ConfigVal))
  | .nil => .ok []
  | .cons k c rest =>
      match c with
      | .dataset vs => do
          let tail ← readItems rest
          .ok ((k, mkConfigVal vs) :: tail)
      | .group _ => .error .attributeError

/-- `DectrisMetafile.read_dectris_config`. -/
def readDectrisConfig (f : H5Node) : Except PyErr (List (String × ConfigVal)) :=
  match lookupPath f "_dectris" with
  | none => .error .keyError
  | some (.dataset _) => .error .attributeError
  | some (.group cs) => readItems cs

/-- `DectrisMetafile.hasDectrisGroup`: `"_dectris"` is a top-level key
and names a group. -/
def hasDectrisGroup (f : H5Node) : Bool :=
  (rootKeys f).contains "_dectris" &&
    match lookupPath f "_dectris" with
    | some (.group _) => true
    | _ => false

/-- Python `dict` built by successive `config[k] = v` assignments:
the last binding of a key wins. -/
def dictGet (l : List (String × ConfigVal)) (k : String) : Option ConfigVal :=
  l.foldl (fun acc kv => if kv.1 == k then some kv.2 else acc) none

/-- `config[k]` with Python `KeyError` on a missing key. -/
def dictGetE (l : List (String × ConfigVal)) (k : String) :
    Except PyErr ConfigVal :=
  match dictGet l k with
  | some v => .ok v
  | none => .error .keyError

/-- Python `v >= k` on a config value: defined for integer scalars,
a `TypeError` against text and an ambiguous-truth error on arrays. -/
def cvGE (v : ConfigVal) (k : Int) : Except PyErr Bool :=
  match v with
  | .scalar (.int n) => .ok (decide (k ≤ n))
  | .scalar _ => .error .typeError
  | .array _ => .error .valueError

/-- Python `v > k` on a config value. -/
def cvGT (v : ConfigVal) (k : Int) : Except PyErr Bool :=
  match v with
  | .scalar (.int n) => .ok (decide (k < n))
  | .scalar _ => .error .typeError
  | .array _ => .error .valueError

/-- Python `v == k` against an integer: `False` for non-integer
scalars, ambiguous truth value for arrays. -/
def cvEQ (v : ConfigVal) (k : Int) : Except PyErr Bool :=
  match v with
  | .scalar (.int n) => .ok (decide (n = k))
  | .scalar _ => .ok false
  | .array _ => .error .valueError

/-- `DectrisMetafile.get_number_of_images`, with the Python
short-circuit evaluation order of the two `and` conditions and the
implicit `return None` fall-through.  In the no-config branch the code
indexes `_loc[0]` without an emptiness guard, so an empty match list
raises `IndexError`. -/
def getNumberOfImages (f : H5Node) : Except PyErr (Option ConfigVal) :=
  if hasDectrisGroup f then do
    let config ← readDectrisConfig f
    let b1 ← do
      let n ← dictGetE config "nimages"
      let g ← cvGE n 1
      if g then do
        let t ← dictGetE config "ntrigger"
        cvEQ t 1
      else pure false
    if b1 then do
      let n ← dictGetE config "nimages"
      pure (some n)
    else do
      let b2 ← do
        let n ← dictGetE config "nimages"
        let e ← cvEQ n 1
        if e then do
          let t ← dictGetE config "ntrigger"
          cvGT t 1
        else pure false
      if b2 then do
        let t ← dictGetE config "ntrigger"
        pure (some t)
      else pure none
  else
    match (walk f).filter (fun p => pyIn "nimages" p) with
    | [] => .error .indexError
    | p :: _ => do
        let e ← item0 f p
        pure (some (ConfigVal.scalar e))

/-- `DectrisMetafile.get_detector_size`: read every path containing
`"pixels_in_detector"`, return `None` when there is no match, else the
collected first elements reversed. -/
def getDetectorSize (f : H5Node) : Except PyErr (Option (List Elem)) := do
  let vals ← ((walk f).filter (fun p => pyIn "pixels_in_detector" p)).mapM
    (item0 f)
  pure (if vals = [] then none else some vals.reverse)

/-- `DectrisMetafile.get_wavelength`: first path containing
`"wavelength"`, `None` when absent. -/
def getWavelength (f : H5Node) : Except PyErr (Option Elem) :=
  match (walk f).filter (fun p => pyIn "wavelength" p) with
  | [] => .ok none
  | p :: _ => do
      let e ← item0 f p
      pure (some e)

/-- The find-first-path idiom `_loc = [obj for obj in self.walk if s in
obj]; None if not _loc else _loc[0]` shared by the `find_*` getters. -/
def firstPathContaining (f : H5Node) (s : String) : Option String :=
  ((walk f).filter (fun p => pyIn s p)).head?

/-- `DectrisMetafile.get_sensor_information`: the returned tuple is
built left to right, so the code first indexes the `"sensor_material"`
match list (`IndexError` when empty) and reads that path's first
element, and only then indexes the `"sensor_thickness"` match list
(`IndexError` when empty) and reads that path. -/
def getSensorInformation (f : H5Node) : Except PyErr (Elem × Elem) :=
  match (walk f).filter (fun p => pyIn "sensor_material" p) with
  | [] => .error .indexError
  | pm :: _ => do
      let m ← item0 f pm
      match (walk f).filter (fun p => pyIn "sensor_thickness" p) with
      | [] => .error .indexError
      | pt :: _ => do
          let t ← item0 f pt
          pure (m, t)

/-- `DectrisMetafile.find_mask`.  Under `hasMask` the filtered list of
paths lowercasing to `"mask"` is indexed at 0 (`IndexError` if empty,
though `hasMask` guarantees a match); the companion is the first path
containing `"mask_applied"`, or `None`. -/
def findMask (f : H5Node) : Except PyErr (Option String × Option String) :=
  if hasMask f then
    match (walk f).filter (fun p => pyLower p == "mask"),
          (walk f).filter (fun p => pyIn "mask_applied" p) with
    | [], _ => .error .indexError
    | m :: _, a :: _ => .ok (some m, some a)
    | m :: _, [] => .ok (some m, none)
  else .ok (none, none)

/-- `tristan_pattern.fullmatch`: the whole name is `"ts_qty_module"`
followed by exactly two decimal digits. -/
def tristanFullmatch (s : String) : Bool :=
  leadsWith "ts_qty_module".data s.data &&
    match s.data.drop 13 with
    | [a, b] => a.isDigit && b.isDigit
    | _ => false

/-- `TristanMetafile.isTristan`: true when at least one top-level child
name fully matches the Tristan module pattern. -/
def isTristan (f : H5Node) : Bool :=
  !((rootKeys f).filter tristanFullmatch).isEmpty

/-- `TristanMetafile.find_number_of_modules`: the number of top-level
children fully matching the Tristan module pattern. -/
def findNumberOfModules (f : H5Node) : Nat :=
  ((rootKeys f).filter tristanFullmatch).length

/-!
Helper lemmas.
-/

/-- Reduction of `Except` bind on a success value. -/
@[simp] theorem ok_bind {e a b : Type} (x : a) (f : a → Except e b) :
    (Except.ok x >>= f) = f x := rfl

/-- Reduction of `Except` bind on an error value. -/
@[simp] theorem error_bind {e a b : Type} (err : e) (f : a → Except e b) :
    ((Except.error err : Except e a) >>= f) = Except.error err := rfl

/-- Reduction of `Except` map on a success value. -/
@[simp] theorem ok_map {e a b : Type} (g : a → b) (x : a) :
    (g <$> (Except.ok x : Except e a)) = Except.ok (g x) := rfl

/-- Monadic `pure` into `Except` is `Except.ok`. -/
@[simp] theorem pure_eq_ok {e a : Type} (x : a) :
    (pure x : Except e a) = Except.ok x := rfl

/-- The head of a filtered list is the first element satisfying the
predicate. -/
theorem head_filter_eq_find {a : Type} (p : a → Bool) (l : List a) :
    (l.filter p).head? = l.find? p := by
  induction l with
  | nil => rfl
  | cons x l ih =>
    by_cases h : p x
    · simp [List.filter_cons, List.find?, h]
    · simp [List.filter_cons, List.find?, h, ih]

/-- A filter is nonempty exactly when some element satisfies the
predicate. -/
theorem filter_ne_nil_iff {a : Type} (p : a → Bool) (l : List a) :
    ¬ l.filter p = [] ↔ ∃ x ∈ l, p x = true := by
  simp [List.filter_eq_nil_iff]

/-- `leadsWith` holds exactly on the lists that extend the needle. -/
theorem leadsWith_iff (n : List Char) : ∀ h : List Char,
    leadsWith n h = true ↔ ∃ t, h = n ++ t := by
  induction n with
  | nil => intro h; simp [leadsWith]
  | cons a as ih =>
    intro h
    cases h with
    | nil => simp [leadsWith]
    | cons b bs =>
      simp only [leadsWith, Bool.and_eq_true, beq_iff_eq, ih, List.cons_append,
        List.cons.injEq]
      constructor
      · rintro ⟨rfl, t, rfl⟩; exact ⟨t, rfl, rfl⟩
      · rintro ⟨t, rfl, rfl⟩; exact ⟨rfl, t, rfl⟩

/-- `tristan_pattern.fullmatch` succeeds exactly on names built from
`"ts_qty_module"` followed by two decimal digits. -/
theorem tristanFullmatch_iff (s : String) : tristanFullmatch s = true ↔
    ∃ a b : Char, a.isDigit = true ∧ b.isDigit = true ∧
      s.data = "ts_qty_module".data ++ [a, b] := by
  unfold tristanFullmatch
  rw [Bool.and_eq_true, leadsWith_iff]
  constructor
  · rintro ⟨⟨t, hs⟩, hm⟩
    rw [hs, show (13 : Nat) = ("ts_qty_module".data).length from rfl,
      List.drop_left] at hm
    match t, hm with
    | [a, b], hm =>
      rw [Bool.and_eq_true] at hm
      exact ⟨a, b, hm.1, hm.2, hs⟩
  · rintro ⟨a, b, ha, hb, hs⟩
    refine ⟨⟨[a, b], hs⟩, ?_⟩
    rw [hs, show (13 : Nat) = ("ts_qty_module".data).length from rfl,
      List.drop_left]
    simp [ha, hb]

/-- `isTristan` holds exactly when a top-level key matches the Tristan
module pattern. -/
theorem isTristan_iff (f : H5Node) : isTristan f = true ↔
    ∃ k ∈ rootKeys f, tristanFullmatch k = true := by
  rw [isTristan, Bool.not_eq_true']
  have h1 : (List.filter tristanFullmatch (rootKeys f)).isEmpty = false ↔
      ¬ List.filter tristanFullmatch (rootKeys f) = [] := by
    simp [List.isEmpty_iff]
  rw [h1, filter_ne_nil_iff]

/-!
Concrete example containers used by witnesses and counterexamples.
-/

/-- A container holding the authoritative config `{nimages: 100,
ntrigger: 1}`. -/
def exContinuous : H5Node := .group (.cons "_dectris"
  (.group (.cons "nimages" (.dataset [.int 100])
    (.cons "ntrigger" (.dataset [.int 1]) .nil))) .nil)

/-- A container holding the authoritative config `{nimages: 1,
ntrigger: 50}`. -/
def exTriggered : H5Node := .group (.cons "_dectris"
  (.group (.cons "nimages" (.dataset [.int 1])
    (.cons "ntrigger" (.dataset [.int 50]) .nil))) .nil)

/-- A container with neither a `_dectris` group nor any path containing
`"nimages"`. -/
def exNoImages : H5Node := .group (.cons "foo" (.dataset [.int 3]) .nil)

/-- A container with no `_dectris` group and one `"nimages"` dataset. -/
def exTreeImages : H5Node := .group (.cons "nimages" (.dataset [.int 7]) .nil)

/-- A container whose `_dectris` group holds a byte-string version and
a single-element integer array. -/
def exConfigScalars : H5Node := .group (.cons "_dectris"
  (.group (.cons "nimages" (.dataset [.int 42])
    (.cons "software_version" (.dataset [.bytes "1.2.3"]) .nil))) .nil)

/-- A container with a two-element `"wavelength"` dataset. -/
def exTwoWavelengths : H5Node :=
  .group (.cons "wavelength" (.dataset [.int 5, .int 6]) .nil)

/-- A container with an empty dataset and a two-element dataset. -/
def exShapes : H5Node := .group (.cons "zero" (.dataset [])
  (.cons "many" (.dataset [.int 1, .int 2]) .nil))

/-- A container storing the detector size as `x = 3000` (slow) before
`y = 4000` (fast) in traversal order. -/
def exDetSize : H5Node := .group
  (.cons "pixels_in_detector_x" (.dataset [.int 3000])
    (.cons "pixels_in_detector_y" (.dataset [.int 4000]) .nil))

/-- A container with `"nimages"` datasets under two groups, `a` before
`b` in traversal order. -/
def exTwoNimages : H5Node := .group
  (.cons "a" (.group (.cons "nimages" (.dataset [.int 1]) .nil))
    (.cons "b" (.group (.cons "nimages" (.dataset [.int 2]) .nil)) .nil))

/-- A container with sensor material and thickness datasets. -/
def exSensor : H5Node := .group
  (.cons "sensor_material" (.dataset [.bytes "Si"])
    (.cons "sensor_thickness" (.dataset [.int 450]) .nil))

/-- A container whose only `"sensor_material"` match is a group and
which has no `"sensor_thickness"` path at all. -/
def exSensorGroup : H5Node := .group
  (.cons "sensor_material" (.group .nil) .nil)

/-- A container with a `"sensor_material"` dataset but no
`"sensor_thickness"` path. -/
def exSensorNoThickness : H5Node := .group
  (.cons "sensor_material" (.dataset [.bytes "Si"]) .nil)

/-- A container with a root-level `"mask"` dataset and no
`"mask_applied"` node. -/
def exMaskOnly : H5Node := .group (.cons "mask" (.dataset [.int 0]) .nil)

/-- A container whose root holds the module datasets
`ts_qty_module00` and `ts_qty_module01`. -/
def exTristanRoot : H5Node := .group (.cons "ts_qty_module00" (.dataset [])
  (.cons "ts_qty_module01" (.dataset []) .nil))

/-- A container whose only mask-related node is the nested path
`"detector/mask"`. -/
def exNestedMask : H5Node :=
  .group (.cons "detector" (.group (.cons "mask" (.dataset [.int 0]) .nil)) .nil)

/-!
The claims.
-/

/-- C1: with the authoritative `_dectris` configuration group present,
`get_number_of_images` returns `config["nimages"]` when `nimages >= 1`
and `ntrigger == 1`, and returns `config["ntrigger"]` when
`nimages == 1` and `ntrigger > 1`. -/
theorem getNumberOfImages_config (f : H5Node)
    (config : List (String × ConfigVal)) (n t : Int)
    (hg : hasDectrisGroup f = true)
    (hc : readDectrisConfig f = .ok config)
    (hn : dictGet config "nimages" = some (.scalar (.int n)))
    (ht : dictGet config "ntrigger" = some (.scalar (.int t))) :
    (1 ≤ n ∧ t = 1 →
       getNumberOfImages f = .ok (some (ConfigVal.scalar (Elem.int n)))) ∧
    (n = 1 ∧ 1 < t →
       getNumberOfImages f = .ok (some (ConfigVal.scalar (Elem.int t)))) := by
  constructor
  · rintro ⟨h1, h2⟩
    simp [getNumberOfImages, hg, hc, dictGetE, hn, ht, cvGE, cvEQ, h1, h2]
  · rintro ⟨h1, h2⟩
    have hne : ¬ (t = 1) := by omega
    subst h1
    simp [getNumberOfImages, hg, hc, dictGetE, hn, ht, cvGE, cvEQ, cvGT, h2,
      hne]

/-- C1 witness: `{nimages: 100, ntrigger: 1}` yields `100` and
`{nimages: 1, ntrigger: 50}` yields `50`. -/
theorem getNumberOfImages_config_witness :
    getNumberOfImages exContinuous
      = .ok (some (ConfigVal.scalar (Elem.int 100))) ∧
    getNumberOfImages exTriggered
      = .ok (some (ConfigVal.scalar (Elem.int 50))) :=
  ⟨(getNumberOfImages_config exContinuous
      [("nimages", ConfigVal.scalar (Elem.int 100)),
       ("ntrigger", ConfigVal.scalar (Elem.int 1))] 100 1
      (by rfl) (by rfl) (by rfl) (by rfl)).1 ⟨by decide, rfl⟩,
   (getNumberOfImages_config exTriggered
      [("nimages", ConfigVal.scalar (Elem.int 1)),
       ("ntrigger", ConfigVal.scalar (Elem.int 50))] 1 50
      (by rfl) (by rfl) (by rfl) (by rfl)).2 ⟨rfl, by decide⟩⟩

/-- C2 counterexample: on a container with no `_dectris` group and no
path containing `"nimages"`, `get_number_of_images` raises `IndexError`
from the unguarded `_loc[0]` rather than returning absence. -/
theorem getNumberOfImages_missing_raises :
    getNumberOfImages exNoImages = .error PyErr.indexError ∧
    (getNumberOfImages exNoImages).isOk = false := ⟨by rfl, by rfl⟩

/-- C2 amended: without the authoritative group, the first path
containing `"nimages"` is read and its first element returned; when no
path contains `"nimages"` the call fails with an index error instead of
returning absence. -/
theorem getNumberOfImages_fallback (f : H5Node)
    (hg : hasDectrisGroup f = false) :
    ((walk f).filter (fun p => pyIn "nimages" p) = [] →
       getNumberOfImages f = .error .indexError) ∧
    (∀ p l e, (walk f).filter (fun p => pyIn "nimages" p) = p :: l →
       item0 f p = .ok e →
       getNumberOfImages f = .ok (some (ConfigVal.scalar e))) := by
  constructor
  · intro h; simp [getNumberOfImages, hg, h]
  · intro p l e h he; simp [getNumberOfImages, hg, h, he]

/-- C2 witness: the amended fallback behaviour at two concrete
containers, one without and one with an `"nimages"` path. -/
theorem getNumberOfImages_fallback_witness :
    getNumberOfImages exNoImages = .error .indexError ∧
    getNumberOfImages exTreeImages
      = .ok (some (ConfigVal.scalar (Elem.int 7))) :=
  ⟨(getNumberOfImages_fallback exNoImages (by rfl)).1 (by rfl),
   (getNumberOfImages_fallback exTreeImages (by rfl)).2
     "nimages" [] (.int 7) (by rfl) (by rfl)⟩

/-- C3: `read_dectris_config` unwraps single-element arrays and
decodes byte strings: a dataset holding `b"1.2.3"` is read as the text
`"1.2.3"` and a dataset holding `[42]` as the scalar `42`. -/
theorem readDectrisConfig_scalar_unwrap :
    (∀ (k : String) (e : Elem),
       readDectrisConfig (H5Node.group (.cons "_dectris"
           (.group (.cons k (.dataset [e]) .nil)) .nil))
         = .ok [(k, ConfigVal.scalar (decodeElem e))]) ∧
    readDectrisConfig exConfigScalars
      = .ok [("nimages", ConfigVal.scalar (Elem.int 42)),
             ("software_version", ConfigVal.scalar (Elem.str "1.2.3"))] :=
  ⟨fun _ _ => rfl, by rfl⟩

/-- C4 counterexample: a two-element `"wavelength"` dataset is read by
`get_wavelength` without any error, silently yielding the first
element, where the claim demands a failure. -/
theorem multiElement_read_silent :
    getWavelength exTwoWavelengths = .ok (some (Elem.int 5)) ∧
    (getWavelength exTwoWavelengths).isOk = true := ⟨by rfl, by rfl⟩

/-- C4 amended: the scalar read `self[path][0]` fails with an index
error on a zero-element dataset, and on a dataset with more than one
element silently returns the first element; no `MalformedValueError`
exists in the code. -/
theorem scalar_read_shape (f : H5Node) (p : String) :
    (lookupPath f p = some (H5Node.dataset []) →
       item0 f p = .error .indexError) ∧
    (∀ e es, lookupPath f p = some (H5Node.dataset (e :: es)) →
       item0 f p = .ok e) := by
  constructor
  · intro h; simp [item0, h]
  · intro e es h; simp [item0, h]

/-- C4 witness: the amended shape behaviour at a container holding an
empty dataset and a two-element dataset. -/
theorem scalar_read_shape_witness :
    item0 exShapes "zero" = .error .indexError ∧
    item0 exShapes "many" = .ok (.int 1) :=
  ⟨(scalar_read_shape exShapes "zero").1 (by rfl),
   (scalar_read_shape exShapes "many").2 (.int 1) [.int 2] (by rfl)⟩

/-- C5: `get_detector_size` collects all paths containing
`"pixels_in_detector"` in traversal order, reads each as a scalar and
returns the collected values reversed into (fast, slow) order, with
absence when nothing matches. -/
theorem getDetectorSize_reversed (f : H5Node) (vals : List Elem)
    (h : ((walk f).filter (fun p => pyIn "pixels_in_detector" p)).mapM
       (item0 f) = Except.ok vals) :
    getDetectorSize f = .ok (if vals = [] then none else some vals.reverse) := by
  simp only [getDetectorSize, h, ok_bind, pure_eq_ok]

/-- C5 witness: stored `(3000, 4000)` in (slow, fast) traversal order
comes back as `(4000, 3000)`, and a container with no matches yields
absence. -/
theorem getDetectorSize_reversed_witness :
    getDetectorSize exDetSize = .ok (some [Elem.int 4000, Elem.int 3000]) ∧
    getDetectorSize (H5Node.group .nil) = .ok none :=
  ⟨getDetectorSize_reversed exDetSize [Elem.int 3000, Elem.int 4000] (by rfl),
   getDetectorSize_reversed (H5Node.group .nil) [] (by rfl)⟩

/-- C6: the find-first-path idiom returns the first path of the walk
containing the substring, or absence when none matches; with
`a/nimages` before `b/nimages` in traversal order the first match is
`a/nimages`. -/
theorem firstPathContaining_first_match :
    (∀ (f : H5Node) (s : String),
       firstPathContaining f s = (walk f).find? (fun p => pyIn s p)) ∧
    firstPathContaining exTwoNimages "nimages" = some "a/nimages" :=
  ⟨fun f s => head_filter_eq_find _ _, by rfl⟩

/-- C7 counterexample: when the only `"sensor_material"` match names a
group and no `"sensor_thickness"` path exists, `get_sensor_information`
fails with `TypeError` from reading `self[_loc_material[0]][0]`, not
with the index error that signals a missing match. -/
theorem getSensorInformation_group_material :
    getSensorInformation exSensorGroup = .error PyErr.typeError ∧
    getSensorInformation exSensorGroup ≠ .error PyErr.indexError := by
  refine ⟨by rfl, ?_⟩
  intro h
  rw [show getSensorInformation exSensorGroup = .error PyErr.typeError
    from rfl] at h
  simp at h

/-- C7 amended: `get_sensor_information` builds its tuple left to
right.  It fails with an index error when no path contains
`"sensor_material"`; when a match exists, that path's value is read
first, and its own error propagates, so only when that read succeeds
does an absent `"sensor_thickness"` fail with the index error; when
both substrings have matches and both reads succeed, the pair of the
first matches' values is returned. -/
theorem getSensorInformation_requires_matches (f : H5Node) :
    ((walk f).filter (fun p => pyIn "sensor_material" p) = [] →
       getSensorInformation f = .error .indexError) ∧
    (∀ pm lm e,
       (walk f).filter (fun p => pyIn "sensor_material" p) = pm :: lm →
       item0 f pm = .error e →
       getSensorInformation f = .error e) ∧
    (∀ pm lm m,
       (walk f).filter (fun p => pyIn "sensor_material" p) = pm :: lm →
       item0 f pm = .ok m →
       (walk f).filter (fun p => pyIn "sensor_thickness" p) = [] →
       getSensorInformation f = .error .indexError) ∧
    (∀ pm lm pt lt m t,
       (walk f).filter (fun p => pyIn "sensor_material" p) = pm :: lm →
       (walk f).filter (fun p => pyIn "sensor_thickness" p) = pt :: lt →
       item0 f pm = .ok m → item0 f pt = .ok t →
       getSensorInformation f = .ok (m, t)) := by
  refine ⟨fun h => by simp [getSensorInformation, h], ?_, ?_, ?_⟩
  · intro pm lm e h1 he
    simp [getSensorInformation, h1, he]
  · intro pm lm m h1 hm h2
    simp [getSensorInformation, h1, hm, h2]
  · intro pm lm pt lt m t h1 h2 hm hh
    simp [getSensorInformation, h1, h2, hm, hh]

/-- C7 witness: the sensor pair on a container holding both datasets,
the index error on an empty container, the index error when the
material read succeeds but no thickness path exists, and the
propagated type error when the material match is a group. -/
theorem getSensorInformation_requires_matches_witness :
    getSensorInformation exSensor = .ok (Elem.bytes "Si", Elem.int 450) ∧
    getSensorInformation (H5Node.group .nil) = .error .indexError ∧
    getSensorInformation exSensorNoThickness = .error .indexError ∧
    getSensorInformation exSensorGroup = .error .typeError :=
  ⟨(getSensorInformation_requires_matches exSensor).2.2.2
     "sensor_material" [] "sensor_thickness" [] _ _
     (by rfl) (by rfl) (by rfl) (by rfl),
   (getSensorInformation_requires_matches (H5Node.group .nil)).1 (by rfl),
   (getSensorInformation_requires_matches exSensorNoThickness).2.2.1
     "sensor_material" [] (.bytes "Si") (by rfl) (by rfl) (by rfl),
   (getSensorInformation_requires_matches exSensorGroup).2.1
     "sensor_material" [] .typeError (by rfl) (by rfl)⟩

/-- C8: `find_mask` returns `(None, None)` when the mask marker is
absent; when present it pairs the marker path with the first
`"mask_applied"` companion path, or with `None` when no companion
exists. -/
theorem findMask_marker (f : H5Node) :
    (hasMask f = false → findMask f = .ok (none, none)) ∧
    (∀ m l, hasMask f = true →
       (walk f).filter (fun p => pyLower p == "mask") = m :: l →
       findMask f = .ok (some m,
         ((walk f).filter (fun p => pyIn "mask_applied" p)).head?)) := by
  constructor
  · intro h; simp [findMask, h]
  · intro m l h hm
    rcases ha : (walk f).filter (fun p => pyIn "mask_applied" p) with
      _ | ⟨a, la⟩ <;> simp [findMask, h, hm, ha]

/-- C8 witness: a container with a `"mask"` dataset and no
`"mask_applied"` node yields `("mask", None)`, and a container with
neither yields `(None, None)`. -/
theorem findMask_marker_witness :
    findMask exMaskOnly = .ok (some "mask", none) ∧
    findMask (H5Node.group .nil) = .ok (none, none) :=
  ⟨(findMask_marker exMaskOnly).2 "mask" [] (by rfl) (by rfl),
   (findMask_marker (H5Node.group .nil)).1 (by rfl)⟩

/-- C9: `isTristan` holds exactly when some top-level child name fully
matches `"ts_qty_module"` plus two digits; on a root holding
`ts_qty_module00` and `ts_qty_module01` it returns true and
`find_number_of_modules` returns 2. -/
theorem isTristan_pattern :
    (∀ f : H5Node, isTristan f = true ↔
       ∃ k ∈ rootKeys f, tristanFullmatch k = true) ∧
    (∀ s : String, tristanFullmatch s = true ↔
       ∃ a b : Char, a.isDigit = true ∧ b.isDigit = true ∧
         s.data = "ts_qty_module".data ++ [a, b]) ∧
    isTristan exTristanRoot = true ∧
    findNumberOfModules exTristanRoot = 2 :=
  ⟨isTristan_iff, tristanFullmatch_iff, by rfl, by rfl⟩

/-- C10: the mask marker check is exact membership of `"mask"` in the
flattened path listing, so a container whose mask node is only nested
has `hasMask` false and `find_mask` equal to `(None, None)`. -/
theorem hasMask_exact_membership (f : H5Node) (h : ¬ "mask" ∈ walk f) :
    hasMask f = false ∧ findMask f = .ok (none, none) := by
  have hm : hasMask f = false := by simp [hasMask, h]
  exact ⟨hm, by simp [findMask, hm]⟩

/-- C10 witness: with the nested path `detector/mask` present — a path
containing the substring `"mask"` — the marker check still fails and
`find_mask` returns `(None, None)`. -/
theorem hasMask_exact_membership_witness :
    hasMask exNestedMask = false ∧
    findMask exNestedMask = .ok (none, none) ∧
    "detector/mask" ∈ walk exNestedMask ∧
    pyIn "mask" "detector/mask" = true := by
  refine ⟨(hasMask_exact_membership exNestedMask ?_).1,
    (hasMask_exact_membership exNestedMask ?_).2, ?_, ?_⟩ <;> decide
